import Mathlib

/-!
Shallow embedding of `homework.py`: a fitness-tracker calculation hierarchy
(`Training` with variants `Running`, `SportsWalking`, `Swimming`), the
`InfoMessage` report formatter, and the `read_package` dispatcher.
Python floats are modelled as rationals (`ℚ`); Python float floor division
(`//`) is `Int.floor` of the true quotient; a Python method that can either
return a value (possibly `None`) or raise is modelled with `PyResult`.
-/

/-- Outcome of calling a Python method: a normal return of a value
(the value may be the Python `None` object, modelled by `Option.none`
at type `Option ℚ`), or a raised exception carrying a message. -/
inductive PyResult (α : Type) where
  | returns (v : α)
  | raises (msg : String)
deriving DecidableEq

/-- True exactly when the call raised an exception. -/
def PyResult.isRaise {α : Type} : PyResult α → Bool
  | .returns _ => false
  | .raises _ => true

/-- The four runtime classes of `homework.py`: the base class `Training`
(fields `action`, `duration`, `weight`) and its subclasses `Running`,
`SportsWalking` (extra field `height`) and `Swimming` (extra fields
`length_pool`, `count_pool`). Numeric fields are rationals. -/
inductive Training where
  | base (action duration weight : ℚ)
  | running (action duration weight : ℚ)
  | sportsWalking (action duration weight height : ℚ)
  | swimming (action duration weight length_pool count_pool : ℚ)
deriving DecidableEq

/-- Field `self.action`. -/
def Training.action : Training → ℚ
  | .base a _ _ => a
  | .running a _ _ => a
  | .sportsWalking a _ _ _ => a
  | .swimming a _ _ _ _ => a

/-- Field `self.duration`. -/
def Training.duration : Training → ℚ
  | .base _ d _ => d
  | .running _ d _ => d
  | .sportsWalking _ d _ _ => d
  | .swimming _ d _ _ _ => d

/-- Field `self.weight`. -/
def Training.weight : Training → ℚ
  | .base _ _ w => w
  | .running _ _ w => w
  | .sportsWalking _ _ w _ => w
  | .swimming _ _ w _ _ => w

/-- Class attribute `LEN_STEP`: `0.65` on `Training` (inherited by
`Running` and `SportsWalking`), overridden to `1.38` on `Swimming`. -/
def Training.LEN_STEP : Training → ℚ
  | .swimming _ _ _ _ _ => 1.38
  | _ => 0.65

/-- Class attribute `M_IN_KM = 1000`. -/
def M_IN_KM : ℚ := 1000

/-- `Training.get_distance`: `self.action * self.LEN_STEP / self.M_IN_KM`.
`Swimming.get_distance` overrides it with the textually identical body
(its `LEN_STEP` resolving to `1.38`), so one equation covers all classes. -/
def Training.get_distance (t : Training) : ℚ :=
  t.action * t.LEN_STEP / M_IN_KM

/-- `Training.get_mean_speed`: `self.get_distance() / self.duration`;
`Swimming` overrides it to
`self.length_pool * self.count_pool / self.M_IN_KM / self.duration`. -/
def Training.get_mean_speed : Training → ℚ
  | .swimming _ d _ lp cp => lp * cp / M_IN_KM / d
  | t => t.get_distance / t.duration

/-- `get_spent_calories`. The base class body is `pass`, i.e. a normal
return of the Python `None` object. Each subclass overrides it with its
arithmetic formula; Python float floor division `//` in the walking
formula is the floor of the true quotient. No branch raises. -/
def Training.get_spent_calories : Training → PyResult (Option ℚ)
  | .base _ _ _ => .returns none
  | .running a d w =>
      .returns (some ((18 * (Training.running a d w).get_mean_speed - 20)
        * w / M_IN_KM * d * 60))
  | .sportsWalking a d w h =>
      .returns (some ((0.035 * w
        + (⌊(Training.sportsWalking a d w h).get_mean_speed ^ 2 / h⌋ : ℚ)
          * 0.029 * w) * d * 60))
  | .swimming a d w lp cp =>
      .returns (some (((Training.swimming a d w lp cp).get_mean_speed + 1.1)
        * 2 * w))

/-- `self.__class__.__name__`. -/
def Training.class_name : Training → String
  | .base _ _ _ => "Training"
  | .running _ _ _ => "Running"
  | .sportsWalking _ _ _ _ => "SportsWalking"
  | .swimming _ _ _ _ _ => "Swimming"

/-- The three characters of a three-digit zero-padded decimal rendering of
`n % 1000` (used for the fractional part of a fixed-3 format). -/
def pad3 (n : ℕ) : String :=
  String.mk [Nat.digitChar (n / 100 % 10), Nat.digitChar (n / 10 % 10),
    Nat.digitChar (n % 10)]

/-- Round a rational to the nearest integer, ties to even — the rounding
Python applies when formatting with `:.3f` (on the values arising here). -/
def roundHalfEven (q : ℚ) : ℤ :=
  if q - ⌊q⌋ < 1 / 2 then ⌊q⌋
  else if 1 / 2 < q - ⌊q⌋ then ⌊q⌋ + 1
  else if ⌊q⌋ % 2 = 0 then ⌊q⌋ else ⌊q⌋ + 1

/-- Model of Python fixed-point formatting `:.3f`: the value rounded to three decimal
places, rendered with a sign, an integer part, a point `.` and exactly
three fractional digits. -/
def formatFixed3 (q : ℚ) : String :=
  let n : ℤ := roundHalfEven (q * 1000)
  let sign : String := if n < 0 then "-" else ""
  let m : ℕ := n.natAbs
  sign ++ toString (m / 1000) ++ "." ++ pad3 (m % 1000)

/-- The `InfoMessage` class: five data fields plus the `massage` string the
constructor assembles once from them. -/
structure InfoMessage where
  training_type : String
  duration : ℚ
  distance : ℚ
  speed : ℚ
  calories : ℚ
  massage : String
deriving DecidableEq

/-- `InfoMessage.__init__`: stores the five arguments and builds `massage`
from the f-string template of `homework.py` (Russian labels, each numeric
field formatted with `:.3f`). -/
def mkInfoMessage (training_type : String)
    (duration distance speed calories : ℚ) : InfoMessage :=
  { training_type := training_type
    duration := duration
    distance := distance
    speed := speed
    calories := calories
    massage := "Тип тренировки: " ++ training_type
      ++ "; Длительность: " ++ formatFixed3 duration
      ++ " ч.; Дистанция: " ++ formatFixed3 distance
      ++ " км; Ср. скорость: " ++ formatFixed3 speed
      ++ " км/ч; Потрачено ккал: " ++ formatFixed3 calories ++ "." }

/-- `InfoMessage.get_message`: returns the stored template string. -/
def InfoMessage.get_message (m : InfoMessage) : String :=
  m.massage

/-- `Training.show_training_info`: builds an `InfoMessage` from the class
name, `duration`, `get_distance()`, `get_mean_speed()` and
`get_spent_calories()`. When `get_spent_calories()` returns the `None`
object (base class), `InfoMessage.__init__` raises `TypeError` while
formatting it with `:.3f`. -/
def Training.show_training_info (t : Training) : PyResult InfoMessage :=
  match t.get_spent_calories with
  | .raises m => .raises m
  | .returns none =>
      .raises "TypeError: unsupported format string passed to NoneType.__format__"
  | .returns (some c) =>
      .returns (mkInfoMessage t.class_name t.duration t.get_distance
        t.get_mean_speed c)

/-!
State-passing forms of the accessor methods. A Python method receives the
object `self` and may reassign its fields; the embedded method therefore
returns the result together with the object state after the call. None of
the four method bodies in `homework.py` contains an assignment to `self`,
so each returns the state it received.
-/

/-- State-passing `get_distance`. -/
def Training.get_distanceS (t : Training) : ℚ × Training :=
  (t.get_distance, t)

/-- State-passing `get_mean_speed`. -/
def Training.get_mean_speedS (t : Training) : ℚ × Training :=
  (t.get_mean_speed, t)

/-- State-passing `get_spent_calories`. -/
def Training.get_spent_caloriesS (t : Training) : PyResult (Option ℚ) × Training :=
  (t.get_spent_calories, t)

/-- State-passing `show_training_info`. -/
def Training.show_training_infoS (t : Training) : PyResult InfoMessage × Training :=
  (t.show_training_info, t)

/-- The error taxonomy of the dispatcher: in `homework.py`,
`UnknownWorkoutCode` is the `KeyError` raised by the dictionary lookup
`dict_workout_type[workout_type]`, and `ArgumentCountMismatch` is the
`TypeError` raised by `training_class(*data)` when the length of `data`
differs from the constructor arity. -/
inductive DispatchError where
  | unknownWorkoutCode
  | argumentCountMismatch
deriving DecidableEq

/-- `read_package`: looks the workout code up in
`{SWM: Swimming, RUN: Running, WLK: SportsWalking}` and applies the found
constructor positionally to the unpacked `data` list. A failed lookup is
`UnknownWorkoutCode`; a constructor-arity failure is
`ArgumentCountMismatch`. -/
def read_package (workout_type : String) (data : List ℚ) : Except DispatchError Training :=
  if workout_type = "SWM" then
    match data with
    | [a, d, w, lp, cp] => .ok (.swimming a d w lp cp)
    | _ => .error .argumentCountMismatch
  else if workout_type = "RUN" then
    match data with
    | [a, d, w] => .ok (.running a d w)
    | _ => .error .argumentCountMismatch
  else if workout_type = "WLK" then
    match data with
    | [a, d, w, h] => .ok (.sportsWalking a d w h)
    | _ => .error .argumentCountMismatch
  else
    .error .unknownWorkoutCode

/-!
Specification-side formulas, written from the words of the specification,
to be compared with the embedded code above.
-/

/-- Spec formula for the mean speed of a step-based workout:
`(action * 0.65 / 1000) / duration`. -/
def spec_step_mean_speed (a d : ℚ) : ℚ :=
  a * 0.65 / 1000 / d

/-- Spec formula for Running calories:
`(18 * meanSpeed - 20) * weight / 1000 * duration * 60`. -/
def spec_running_calories (a d w : ℚ) : ℚ :=
  (18 * spec_step_mean_speed a d - 20) * w / 1000 * d * 60

/-- Spec formula for Walking calories, with the floor (truncating)
division step: `(0.035 * weight + floor(meanSpeed^2 / height) * 0.029 *
weight) * duration * 60`. -/
def spec_walking_calories (a d w h : ℚ) : ℚ :=
  (0.035 * w + (⌊spec_step_mean_speed a d ^ 2 / h⌋ : ℚ) * 0.029 * w) * d * 60

/-- The Walking calorie formula with ordinary (true) division in place of
the floor division step — what the formula would be if `//` were `/`. -/
def spec_walking_calories_truediv (a d w h : ℚ) : ℚ :=
  (0.035 * w + (spec_step_mean_speed a d ^ 2 / h) * 0.029 * w) * d * 60

/-- Spec formula for Swimming mean speed:
`poolLength * poolLaps / 1000 / duration`. -/
def spec_swimming_mean_speed (d lp cp : ℚ) : ℚ :=
  lp * cp / 1000 / d

/-!
Helper lemmas.
-/

/-- `formatFixed3` renders `1` as `1.000` (trailing zeros kept). -/
theorem formatFixed3_one : formatFixed3 1 = "1.000" := by
  unfold formatFixed3 roundHalfEven
  norm_num [pad3]
  rfl

/-- `formatFixed3` renders `9.75` as `9.750` (trailing zero kept). -/
theorem formatFixed3_975 : formatFixed3 9.75 = "9.750" := by
  unfold formatFixed3 roundHalfEven
  norm_num [pad3]
  rfl

/-- `formatFixed3` renders `76.155` as `76.155`. -/
theorem formatFixed3_76155 : formatFixed3 76.155 = "76.155" := by
  unfold formatFixed3 roundHalfEven
  norm_num [pad3]
  rfl

/-- Every digit character produced by `Nat.digitChar` below ten is a
decimal digit. -/
theorem digitChar_isDigit : ∀ m : ℕ, m < 10 → (Nat.digitChar m).isDigit = true := by
  decide

/-- `formatFixed3` always ends in a decimal point followed by exactly
three decimal digits. -/
theorem formatFixed3_decomp (q : ℚ) :
    ∃ ip fp : String, formatFixed3 q = ip ++ "." ++ fp
      ∧ fp.length = 3 ∧ fp.data.all Char.isDigit = true := by
  refine ⟨(if roundHalfEven (q * 1000) < 0 then "-" else "")
      ++ toString ((roundHalfEven (q * 1000)).natAbs / 1000),
    pad3 ((roundHalfEven (q * 1000)).natAbs % 1000), rfl, rfl, ?_⟩
  have h1 : (Nat.digitChar
      ((roundHalfEven (q * 1000)).natAbs % 1000 / 100 % 10)).isDigit = true :=
    digitChar_isDigit _ (Nat.mod_lt _ (by norm_num))
  have h2 : (Nat.digitChar
      ((roundHalfEven (q * 1000)).natAbs % 1000 / 10 % 10)).isDigit = true :=
    digitChar_isDigit _ (Nat.mod_lt _ (by norm_num))
  have h3 : (Nat.digitChar
      ((roundHalfEven (q * 1000)).natAbs % 1000 % 10)).isDigit = true :=
    digitChar_isDigit _ (Nat.mod_lt _ (by norm_num))
  simp [pad3, h1, h2, h3]

/-!
The claims.
-/

/-- Claim C1: for every Walking workout, `get_spent_calories` equals
`(0.035 * weight + floor(meanSpeed^2 / height) * 0.029 * weight) *
duration * 60` with a floor (truncating) division of the squared mean
speed by the height; at `action=9000, duration=1, weight=75, height=180`
this gives `157.5`, which differs from what ordinary division would
give. -/
theorem walking_calories_floor_div :
    (∀ a d w h : ℚ, (Training.sportsWalking a d w h).get_spent_calories
        = .returns (some (spec_walking_calories a d w h)))
    ∧ (Training.sportsWalking 9000 1 75 180).get_spent_calories
        = .returns (some (315 / 2))
    ∧ spec_walking_calories 9000 1 75 180
        ≠ spec_walking_calories_truediv 9000 1 75 180 := by
  refine ⟨fun a d w h => ?_, ?_, ?_⟩
  · simp [Training.get_spent_calories, spec_walking_calories,
      spec_step_mean_speed, Training.get_mean_speed, Training.get_distance,
      Training.action, Training.duration, Training.LEN_STEP, M_IN_KM]
  · simp [Training.get_spent_calories, Training.get_mean_speed,
      Training.get_distance, Training.action, Training.duration,
      Training.LEN_STEP, M_IN_KM]
    norm_num
  · unfold spec_walking_calories spec_walking_calories_truediv
      spec_step_mean_speed
    norm_num

/-- Claim C2: for every Running workout with nonzero duration,
`get_spent_calories` equals `(18 * meanSpeed - 20) * weight / 1000 *
duration * 60` with `meanSpeed = (action * 0.65 / 1000) / duration`;
at `action=15000, duration=1, weight=75` the distance and the mean speed
are exactly `9.75`. -/
theorem running_calories_formula :
    (∀ a d w : ℚ, d ≠ 0 → (Training.running a d w).get_spent_calories
        = .returns (some (spec_running_calories a d w)))
    ∧ (Training.running 15000 1 75).get_distance = 9.75
    ∧ (Training.running 15000 1 75).get_mean_speed = 9.75 := by
  refine ⟨fun a d w _ => ?_, ?_, ?_⟩
  · simp [Training.get_spent_calories, spec_running_calories,
      spec_step_mean_speed, Training.get_mean_speed, Training.get_distance,
      Training.action, Training.duration, Training.LEN_STEP, M_IN_KM]
  · simp [Training.get_distance, Training.action, Training.LEN_STEP, M_IN_KM]
    norm_num
  · simp [Training.get_mean_speed, Training.get_distance, Training.action,
      Training.duration, Training.LEN_STEP, M_IN_KM]
    norm_num

/-- Witness for C2 at `action=15000, duration=1, weight=75`. -/
theorem running_calories_formula_witness :
    (1 : ℚ) ≠ 0
    ∧ (Training.running 15000 1 75).get_spent_calories
        = .returns (some (spec_running_calories 15000 1 75)) :=
  ⟨by norm_num, running_calories_formula.1 15000 1 75 (by norm_num)⟩

/-- Claim C3: for every Swimming workout with nonzero duration,
`get_mean_speed` equals `length_pool * count_pool / 1000 / duration`,
does not depend on `action`, and equals exactly `1` at
`action=720, duration=1, weight=80, length_pool=25, count_pool=40`. -/
theorem swimming_mean_speed_ignores_action :
    (∀ a d w lp cp : ℚ, d ≠ 0 → (Training.swimming a d w lp cp).get_mean_speed
        = spec_swimming_mean_speed d lp cp)
    ∧ (∀ a a' d w lp cp : ℚ, (Training.swimming a d w lp cp).get_mean_speed
        = (Training.swimming a' d w lp cp).get_mean_speed)
    ∧ (Training.swimming 720 1 80 25 40).get_mean_speed = 1 := by
  refine ⟨fun a d w lp cp _ => ?_, fun a a' d w lp cp => rfl, ?_⟩
  · simp [Training.get_mean_speed, spec_swimming_mean_speed, M_IN_KM]
  · simp [Training.get_mean_speed, M_IN_KM]
    norm_num

/-- Witness for C3 at `action=720, duration=1, weight=80,
length_pool=25, count_pool=40`. -/
theorem swimming_mean_speed_ignores_action_witness :
    (1 : ℚ) ≠ 0
    ∧ (Training.swimming 720 1 80 25 40).get_mean_speed
        = spec_swimming_mean_speed 1 25 40 :=
  ⟨by norm_num, swimming_mean_speed_ignores_action.1 720 1 80 25 40 (by norm_num)⟩

/-- Counterexample to claim C4: the report built from
`name=Running, duration=1, distance=9.75, speed=9.75, calories=76.155`
is not the English-labelled template string the claim gives — the code
renders Russian labels. -/
theorem report_template_not_english :
    (mkInfoMessage "Running" 1 9.75 9.75 76.155).get_message
      ≠ "Workout type: Running; Duration: 1.000 h; Distance: 9.750 km; Avg speed: 9.750 km/h; Calories: 76.155." := by
  rw [InfoMessage.get_message, mkInfoMessage]
  rw [formatFixed3_one, formatFixed3_975, formatFixed3_76155]
  decide

/-- Claim C4 (amended): the formatter renders exactly the fixed
Russian-labelled template of `homework.py`, with all four numeric fields
formatted to exactly three decimal places after a locale-independent
decimal point, regardless of trailing zeros in the underlying value. -/
theorem report_template_russian_three_decimals :
    (∀ name : String, ∀ d dist sp cal : ℚ,
      (mkInfoMessage name d dist sp cal).get_message
        = "Тип тренировки: " ++ name
          ++ "; Длительность: " ++ formatFixed3 d
          ++ " ч.; Дистанция: " ++ formatFixed3 dist
          ++ " км; Ср. скорость: " ++ formatFixed3 sp
          ++ " км/ч; Потрачено ккал: " ++ formatFixed3 cal ++ ".")
    ∧ (∀ q : ℚ, ∃ ip fp : String, formatFixed3 q = ip ++ "." ++ fp
        ∧ fp.length = 3 ∧ fp.data.all Char.isDigit = true)
    ∧ formatFixed3 1 = "1.000"
    ∧ formatFixed3 9.75 = "9.750"
    ∧ formatFixed3 76.155 = "76.155" :=
  ⟨fun name d dist sp cal => rfl, formatFixed3_decomp,
    formatFixed3_one, formatFixed3_975, formatFixed3_76155⟩

/-- Claim C5: for every code outside the recognized three and every
argument list, the dispatcher fails with `UnknownWorkoutCode` (the
`KeyError` of the dictionary lookup). -/
theorem read_package_unknown_code (code : String) (data : List ℚ)
    (h1 : code ≠ "SWM") (h2 : code ≠ "RUN") (h3 : code ≠ "WLK") :
    read_package code data = .error .unknownWorkoutCode := by
  unfold read_package
  rw [if_neg h1, if_neg h2, if_neg h3]

/-- Witness for C5 at `code=XYZ, data=[1,2,3]`. -/
theorem read_package_unknown_code_witness :
    ("XYZ" ≠ "SWM" ∧ "XYZ" ≠ "RUN" ∧ "XYZ" ≠ "WLK")
    ∧ read_package "XYZ" [1, 2, 3] = .error .unknownWorkoutCode :=
  ⟨⟨by decide, by decide, by decide⟩,
    read_package_unknown_code "XYZ" [1, 2, 3] (by decide) (by decide) (by decide)⟩

/-- Claim C6: for every recognized code, the dispatcher fails with
`ArgumentCountMismatch` whenever the argument list length differs from
the variant arity (SWM: 5, RUN: 3, WLK: 4), and on the exact arity it
constructs the matching variant with the arguments bound positionally in
order. -/
theorem read_package_arity_and_order (data : List ℚ) :
    (data.length ≠ 5 → read_package "SWM" data = .error .argumentCountMismatch)
    ∧ (data.length ≠ 3 → read_package "RUN" data = .error .argumentCountMismatch)
    ∧ (data.length ≠ 4 → read_package "WLK" data = .error .argumentCountMismatch)
    ∧ (∀ a d w lp cp : ℚ, read_package "SWM" [a, d, w, lp, cp]
        = .ok (.swimming a d w lp cp))
    ∧ (∀ a d w : ℚ, read_package "RUN" [a, d, w] = .ok (.running a d w))
    ∧ (∀ a d w h : ℚ, read_package "WLK" [a, d, w, h]
        = .ok (.sportsWalking a d w h)) := by
  refine ⟨?_, ?_, ?_, fun a d w lp cp => rfl, fun a d w => rfl,
    fun a d w h => rfl⟩
  all_goals
    intro hlen
    rcases data with _ | ⟨a, _ | ⟨b, _ | ⟨c, _ | ⟨e, _ | ⟨f, _ | ⟨g, rest⟩⟩⟩⟩⟩⟩ <;>
      simp_all [read_package]

/-- Witness for C6: length-2 argument lists are rejected for each
recognized code. -/
theorem read_package_arity_and_order_witness :
    ([(1 : ℚ), 2].length ≠ 5
      ∧ read_package "SWM" [1, 2] = .error .argumentCountMismatch)
    ∧ ([(1 : ℚ), 2].length ≠ 3
      ∧ read_package "RUN" [1, 2] = .error .argumentCountMismatch)
    ∧ ([(1 : ℚ), 2].length ≠ 4
      ∧ read_package "WLK" [1, 2] = .error .argumentCountMismatch) :=
  ⟨⟨by decide, (read_package_arity_and_order [1, 2]).1 (by decide)⟩,
    ⟨by decide, (read_package_arity_and_order [1, 2]).2.1 (by decide)⟩,
    ⟨by decide, (read_package_arity_and_order [1, 2]).2.2.1 (by decide)⟩⟩

/-- Counterexample to claim C7: calling `get_spent_calories` on a base
`Training` object is not an error condition — the body `pass` makes the
call return normally (no exception is raised), silently yielding the
Python `None` value. -/
theorem base_calories_returns_silently :
    (Training.base 9000 1 75).get_spent_calories = PyResult.returns none
    ∧ ((Training.base 9000 1 75).get_spent_calories).isRaise = false :=
  ⟨rfl, rfl⟩

/-- Claim C7 (amended): `get_spent_calories` has no default numeric
implementation — on the base type it silently returns the `None` value
rather than raising, never a number, while every concrete variant
overrides it with a computed value; no call on any object raises. -/
theorem base_calories_none_variants_override :
    (∀ a d w : ℚ, (Training.base a d w).get_spent_calories
        = PyResult.returns none)
    ∧ (∀ t : Training, (t.get_spent_calories).isRaise = false)
    ∧ (∀ a d w : ℚ, ∃ c : ℚ, (Training.running a d w).get_spent_calories
        = PyResult.returns (some c))
    ∧ (∀ a d w h : ℚ, ∃ c : ℚ,
        (Training.sportsWalking a d w h).get_spent_calories
          = PyResult.returns (some c))
    ∧ (∀ a d w lp cp : ℚ, ∃ c : ℚ,
        (Training.swimming a d w lp cp).get_spent_calories
          = PyResult.returns (some c)) :=
  ⟨fun a d w => rfl, fun t => by cases t <;> rfl,
    fun a d w => ⟨_, rfl⟩, fun a d w h => ⟨_, rfl⟩,
    fun a d w lp cp => ⟨_, rfl⟩⟩

/-- Claim C8: `get_distance` equals `action * stepLength / 1000` with
step length `0.65` for Running and Walking and `1.38` for Swimming; at
`action=720` a Swimming workout covers exactly `0.9936` km. -/
theorem distance_step_length_formula :
    (∀ a d w : ℚ, (Training.running a d w).get_distance = a * 0.65 / 1000)
    ∧ (∀ a d w h : ℚ,
        (Training.sportsWalking a d w h).get_distance = a * 0.65 / 1000)
    ∧ (∀ a d w lp cp : ℚ,
        (Training.swimming a d w lp cp).get_distance = a * 1.38 / 1000)
    ∧ (Training.swimming 720 1 80 25 40).get_distance = 0.9936 := by
  refine ⟨fun a d w => ?_, fun a d w h => ?_, fun a d w lp cp => ?_, ?_⟩
  · simp [Training.get_distance, Training.action, Training.LEN_STEP, M_IN_KM]
  · simp [Training.get_distance, Training.action, Training.LEN_STEP, M_IN_KM]
  · simp [Training.get_distance, Training.action, Training.LEN_STEP, M_IN_KM]
  · simp [Training.get_distance, Training.action, Training.LEN_STEP, M_IN_KM]
    norm_num

/-- Claim C9: running `show_training_info` twice on the same object (the
second call on the object state left by the first) yields the same
report; equality of the whole `InfoMessage` value gives equality of all
five fields. -/
theorem show_training_info_idempotent (t : Training) :
    t.show_training_infoS.1 = t.show_training_infoS.2.show_training_infoS.1
    ∧ t.show_training_infoS.2.show_training_infoS.2 = t :=
  ⟨rfl, rfl⟩

/-- Claim C10: each accessor method returns the object state it received:
no field of the object (`action`, `duration`, `weight`, `height`,
`length_pool`, `count_pool`) is changed by calling it. -/
theorem accessors_preserve_fields (t : Training) :
    t.get_distanceS.2 = t ∧ t.get_mean_speedS.2 = t
    ∧ t.get_spent_caloriesS.2 = t ∧ t.show_training_infoS.2 = t :=
  ⟨rfl, rfl, rfl, rfl⟩
